import Mathlib

/-!
Verification development for the thunderbot clan-membership approval workflow.

The embedding below translates the TypeScript handlers into pure Lean
functions over an explicit guild state:

* `loadClanConfig`   — src/utils/config.ts (configuration validation)
* `resolve`          — the `cr:` button handler (clan-request approve/deny)
* `submit`           — src/commands/clan-join-request.ts
* `grant` / `revoke` — clan-grant-access / clan-revoke-access commands
* `signupHandler`    — src/events/di-clan-signup-button.ts (message-identity guard)

Discord platform effects (role fetch/add/remove, channel send, message edit,
DM delivery) are modelled by explicit state and by boolean failure injections
corresponding to the try/catch sites of the source.
-/

namespace Thunderbot

/-- A configured clan, as consumed by the handlers (fields of ClanConfig). -/
structure Clan where
  id : String
  name : String
  roleId : String
  approverRoleId : String
  approvalChannelId : String
deriving Repr, DecidableEq

/-- Live guild snapshot at the moment a handler runs: which user ids can be
fetched as guild members, and which (userId, roleId) pairs currently hold.
Role membership is delegated entirely to the platform, so every handler
receives the current snapshot rather than any cached copy. -/
structure GuildState where
  members : List String
  roles : List (String × String)
deriving Repr, DecidableEq

/-- `member.roles.cache.has(roleId)` against the current snapshot. -/
def hasRole (st : GuildState) (u r : String) : Bool :=
  st.roles.contains (u, r)

/-- `member.roles.add(roleId)` (platform set-add; duplicates are harmless). -/
def addRole (st : GuildState) (u r : String) : GuildState :=
  { st with roles := (u, r) :: st.roles }

/-- `member.roles.remove(roleId)`. -/
def removeRole (st : GuildState) (u r : String) : GuildState :=
  { st with roles := st.roles.filter (fun p => p ≠ (u, r)) }

/-- Accumulator pass of `jsSplit`: split a character list at every
occurrence of the separator. -/
def jsSplitAux (sep : Char) : List Char → List Char → List String
  | [], acc => [String.mk acc.reverse]
  | c :: rest, acc =>
    if c = sep then String.mk acc.reverse :: jsSplitAux sep rest []
    else jsSplitAux sep rest (c :: acc)

/-- JavaScript `s.split(sep)` for a single-character separator: every
occurrence of `sep` delimits a (possibly empty) field, and the empty string
splits to `[""]`. -/
def jsSplit (sep : Char) (s : String) : List String :=
  jsSplitAux sep s.data []

/-- JavaScript `s.startsWith(pre)`. -/
def jsStartsWith (s pre : String) : Bool :=
  pre.data.isPrefixOf s.data

/-! ## Configuration loading (src/utils/config.ts) -/

/-- A clan record as it sits in the parsed JSON, before validation: every
field may be absent. A `some ""` models a present-but-empty string, which is
falsy in the source's `!clan[field]` check exactly like an absent field. -/
structure RawClan where
  id : Option String
  name : Option String
  description : Option String
  roleId : Option String
  approverRoleId : Option String
  approvalChannelId : Option String
deriving Repr, DecidableEq

/-- Dynamic field access `clan[field]` used by the validation loop. -/
def RawClan.field (c : RawClan) (f : String) : Option String :=
  if f = "id" then c.id
  else if f = "name" then c.name
  else if f = "description" then c.description
  else if f = "roleId" then c.roleId
  else if f = "approverRoleId" then c.approverRoleId
  else if f = "approvalChannelId" then c.approvalChannelId
  else none

/-- JavaScript falsiness of an optional string: absent, or the empty string. -/
def falsy : Option String → Bool
  | none => true
  | some s => s = ""

/-- The literal `requiredFields` list of `loadClanConfig`. -/
def requiredFields : List String :=
  ["id", "name", "roleId", "approverRoleId", "approvalChannelId"]

/-- Validation of one clan: the source's inner `forEach` throws on the first
required field that is falsy. -/
def validateClan (idx : Nat) (c : RawClan) : Except String Unit :=
  match requiredFields.find? (fun f => falsy (c.field f)) with
  | some f =>
      Except.error ("Invalid configuration: clan at index " ++ toString idx
        ++ " is missing " ++ f)
  | none => Except.ok ()

/-- Validation of the clan array, index-threaded like `config.clans.forEach`. -/
def validateClans : Nat → List RawClan → Except String Unit
  | _, [] => Except.ok ()
  | i, c :: rest =>
    match validateClan i c with
    | Except.error e => Except.error e
    | Except.ok _ => validateClans (i + 1) rest

/-- The observable shapes of `config/clans.json` at load time. -/
inductive ConfigFile where
  | absent
  | unparseable
  | noClanArray
  | parsed (clans : List RawClan)
deriving Repr, DecidableEq

/-- `loadClanConfig`: missing file throws outside the try; parse errors and
validation errors are rethrown with the wrapping prefix. -/
def loadClanConfig : ConfigFile → Except String (List RawClan)
  | ConfigFile.absent =>
      Except.error "Clan configuration file not found. Please create config/clans.json"
  | ConfigFile.unparseable =>
      Except.error "Failed to load clan configuration: Unexpected token in JSON"
  | ConfigFile.noClanArray =>
      Except.error "Failed to load clan configuration: Invalid configuration: clans must be an array"
  | ConfigFile.parsed cs =>
    match validateClans 0 cs with
    | Except.error e => Except.error ("Failed to load clan configuration: " ++ e)
    | Except.ok _ => Except.ok cs

/-- Whether an `Except` is an error. -/
def isErr {α : Type} : Except String α → Bool
  | Except.error _ => true
  | Except.ok _ => false

/-! ## The clan-request button handler (`cr:` buttons): resolve -/

/-- How a `cr:` button interaction terminates, one constructor per exit of
the handler. -/
inductive ResolveOutcome where
  | notCrButton
  | malformedToken
  | groupNotFound
  | notInGuild
  | approverFetchFailed
  | unauthorized
  | requesterNotFound
  | roleMutationFailed
  | resolved (approved : Bool)
deriving Repr, DecidableEq

/-- One button interaction as the handler sees it. `messageId` is
`interaction.message.id`, the message the clicked control is attached to.
The three booleans inject the platform failures the source catches:
`roles.add` throwing, `message.edit` throwing, and DM delivery throwing. -/
structure ResolveInput where
  customId : String
  responderId : String
  messageId : String
  inGuild : Bool
  roleAddFails : Bool
  editFails : Bool
  dmFails : Bool
deriving Repr, DecidableEq

/-- Everything observable after the handler returns: the outcome, the role
state (mutated only by a successful approve), the ephemeral reply to the
responder, the edit applied to a message (target message id and the line
appended to its content, with the buttons removed), and the DM text. -/
structure ResolveResult where
  outcome : ResolveOutcome
  state : GuildState
  replyText : Option String
  editedMessage : Option (String × String)
  dmText : Option String
deriving Repr, DecidableEq

/-- `action === 'a' ? 'accepted' : 'denied'`. -/
def decisionWord (approved : Bool) : String :=
  if approved then "accepted" else "denied"

/-- The resolution line appended to the approval message on edit. -/
def editLine (approved : Bool) (responderId : String) : String :=
  (if approved then "✅ Accepted" else "❌ Denied") ++ " by <@" ++ responderId ++ ">"

/-- The DM sent to the requesting user stating the outcome. -/
def dmContent (approved : Bool) (clanName responderId : String) : String :=
  "**Your clan request has been "
    ++ (if approved then "accepted ✅" else "denied ❌") ++ "**\n\n"
    ++ "**Clan:** " ++ clanName ++ "\n"
    ++ "**Status:** "
    ++ (if approved then "Accepted - Welcome to the clan!"
        else "Denied - Please contact clan leadership for more information.")
    ++ "\n"
    ++ "**Processed by:** <@" ++ responderId ++ ">"

/-- The `cr:` button handler of src/events (the clan-request resolver),
translated branch by branch:
1. ignore non-`cr:` buttons;
2. destructure `customId.split(':')` into the first four positions and
   reject if any of positions 1..3 is missing or empty;
3. look up the clan by id, reload-per-invocation config passed in as `clans`;
4. require a guild context, a fetchable responder, the responder holding the
   approver role (checked against the live snapshot), and a fetchable
   requesting user;
5. on `action === 'a'` add the member role, halting on platform rejection
   before any reply-success/edit/DM;
6. reply to the responder, edit the original message (failure caught and
   swallowed), then best-effort DM the requester (failure caught and
   swallowed). Any non-`'a'` action is treated as a denial. -/
def resolve (clans : List Clan) (st : GuildState) (inp : ResolveInput) : ResolveResult :=
  if jsStartsWith inp.customId "cr:" then
    let parts := jsSplit ':' inp.customId
    let userId := parts.getD 1 ""
    let clanId := parts.getD 2 ""
    let action := parts.getD 3 ""
    if userId = "" ∨ clanId = "" ∨ action = "" then
      ⟨ResolveOutcome.malformedToken, st, some "Invalid request data.", none, none⟩
    else
      match clans.find? (fun c => c.id == clanId) with
      | none =>
          ⟨ResolveOutcome.groupNotFound, st, some "Clan configuration not found.", none, none⟩
      | some clan =>
        if inp.inGuild then
          if st.members.contains inp.responderId then
            if hasRole st inp.responderId clan.approverRoleId then
              if st.members.contains userId then
                let approved := action == "a"
                if approved && inp.roleAddFails then
                  ⟨ResolveOutcome.roleMutationFailed, st,
                    some "Failed to add clan role. Please check bot permissions and try again.",
                    none, none⟩
                else
                  ⟨ResolveOutcome.resolved approved,
                    (if approved then addRole st userId clan.roleId else st),
                    some ("You have " ++ decisionWord approved ++ " the request for <@"
                      ++ userId ++ "> to join " ++ clan.name ++ "."),
                    (if inp.editFails then none
                     else some (inp.messageId, editLine approved inp.responderId)),
                    (if inp.dmFails then none
                     else some (dmContent approved clan.name inp.responderId))⟩
              else
                ⟨ResolveOutcome.requesterNotFound, st,
                  some "Requesting user not found. They may have left the server.", none, none⟩
            else
              ⟨ResolveOutcome.unauthorized, st,
                some "You do not have permission to handle this request.", none, none⟩
          else
            ⟨ResolveOutcome.approverFetchFailed, st,
              some "Failed to verify your permissions. Please try again.", none, none⟩
        else
          ⟨ResolveOutcome.notInGuild, st,
            some "This action can only be performed in a server.", none, none⟩
  else
    ⟨ResolveOutcome.notCrButton, st, none, none, none⟩

/-! ## Join-request submission (src/commands/clan-join-request.ts) -/

/-- The exits of the clan-join-request command. -/
inductive SubmitOutcome where
  | groupNotFound
  | alreadyMember
  | channelUnavailable
  | submitted
deriving Repr, DecidableEq

/-- One invocation of `/clan-join-request`. `channelOk` models the approval
channel being fetchable and text-based; `now` is the epoch-seconds timestamp
embedded in the posted message. -/
structure SubmitInput where
  requesterId : String
  clanId : String
  ign : String
  channelOk : Bool
  now : Nat
deriving Repr, DecidableEq

/-- Observable result of a submission: the outcome, the messages posted to
the approval channel (content together with the customIds of the attached
buttons), and the reply sent to the requester. -/
structure SubmitResult where
  outcome : SubmitOutcome
  posted : List (String × List String)
  reply : Option String
deriving Repr, DecidableEq

/-- The approve-button token `cr:<userId>:<clanId>:a`. -/
def approveToken (uid cid : String) : String :=
  "cr:" ++ uid ++ ":" ++ cid ++ ":a"

/-- The deny-button token `cr:<userId>:<clanId>:d`. -/
def denyToken (uid cid : String) : String :=
  "cr:" ++ uid ++ ":" ++ cid ++ ":d"

/-- Content of the approval-channel request message. -/
def requestContent (requesterId ign : String) (now : Nat) (approverRoleId : String) : String :=
  "**🔔 Clan Join Request**\n\n"
    ++ "**From:** <@" ++ requesterId ++ ">\n"
    ++ "**IGN:** " ++ ign ++ "\n"
    ++ "**Requested:** <t:" ++ toString now ++ ":f>\n"
    ++ "<@&" ++ approverRoleId ++ "> Please review this request using the buttons below."

/-- The `/clan-join-request` execute handler: look up the clan, reject a
requester who already holds the member role without posting anything,
require a usable approval channel, then post exactly one request message
carrying the two decision buttons and acknowledge the requester. -/
def submit (clans : List Clan) (st : GuildState) (inp : SubmitInput) : SubmitResult :=
  match clans.find? (fun c => c.id == inp.clanId) with
  | none => ⟨SubmitOutcome.groupNotFound, [], some "❌ Invalid clan selected."⟩
  | some clan =>
    if hasRole st inp.requesterId clan.roleId then
      ⟨SubmitOutcome.alreadyMember, [],
        some ("❌ You are already a member of " ++ clan.name ++ ".")⟩
    else if inp.channelOk then
      ⟨SubmitOutcome.submitted,
        [(requestContent inp.requesterId inp.ign inp.now clan.approverRoleId,
          [approveToken inp.requesterId clan.id, denyToken inp.requesterId clan.id])],
        some ("✅ Your request to join " ++ clan.name ++ " has been submitted for review.")⟩
    else
      ⟨SubmitOutcome.channelUnavailable, [],
        some "❌ Could not find the approval channel. Please contact an administrator."⟩

/-! ## Direct grant / revoke (clan-grant-access, clan-revoke-access) -/

/-- The exits of the grant and revoke commands. -/
inductive AccessOutcome where
  | noMemberInfo
  | notApprover
  | notApproverForClan
  | targetFetchFailed
  | alreadyHasRole
  | doesNotHaveRole
  | roleMutationFailed
  | granted
  | revoked
deriving Repr, DecidableEq

/-- One invocation of `/clan-grant-access` or `/clan-revoke-access`.
`callerPresent` models `interaction.member` being non-null; `roleMutFails`
the platform rejecting the role add/remove; `channelOk` the approval channel
being fetchable and text-based for the log message. -/
structure AccessInput where
  callerId : String
  targetId : String
  clanId : String
  callerPresent : Bool
  roleMutFails : Bool
  channelOk : Bool
deriving Repr, DecidableEq

/-- Observable result of a grant/revoke: the outcome, the role state after,
the ephemeral reply to the caller, and the log message posted to the clan
approval channel (if any). -/
structure AccessResult where
  outcome : AccessOutcome
  state : GuildState
  replyText : Option String
  logText : Option String
deriving Repr, DecidableEq

/-- The `/clan-grant-access` execute handler: filter the config to the clans
the caller approves, resolve the selected clan among them, fetch the target,
report a no-op when the target already holds the role, otherwise add the
role and log to the approval channel. -/
def grant (clans : List Clan) (st : GuildState) (inp : AccessInput) : AccessResult :=
  if inp.callerPresent then
    let accessible := clans.filter (fun c => hasRole st inp.callerId c.approverRoleId)
    if accessible.isEmpty then
      ⟨AccessOutcome.notApprover, st,
        some "❌ You must have approver permissions for at least one clan to grant access.", none⟩
    else
      match accessible.find? (fun c => c.id == inp.clanId) with
      | none =>
          ⟨AccessOutcome.notApproverForClan, st,
            some "❌ You must have approver permissions for this clan to grant access.", none⟩
      | some clan =>
        if st.members.contains inp.targetId then
          if hasRole st inp.targetId clan.roleId then
            ⟨AccessOutcome.alreadyHasRole, st,
              some ("❌ <@" ++ inp.targetId ++ "> already has the " ++ clan.name ++ " role."),
              none⟩
          else if inp.roleMutFails then
            ⟨AccessOutcome.roleMutationFailed, st,
              some "❌ Failed to grant clan role. Please check bot permissions and try again.",
              none⟩
          else
            ⟨AccessOutcome.granted, addRole st inp.targetId clan.roleId,
              some ("✅ Successfully granted " ++ clan.name ++ " access to <@"
                ++ inp.targetId ++ ">."),
              (if inp.channelOk then
                some ("**🔔 Clan Access Granted**\n\n**To:** <@" ++ inp.targetId
                  ++ ">\n**Clan:** " ++ clan.name ++ "\n**Granted by:** <@"
                  ++ inp.callerId ++ ">")
               else none)⟩
        else
          ⟨AccessOutcome.targetFetchFailed, st,
            some "❌ Failed to fetch target user information.", none⟩
  else
    ⟨AccessOutcome.noMemberInfo, st,
      some "❌ Failed to fetch your member information.", none⟩

/-- The `/clan-revoke-access` execute handler, symmetric to `grant`: a
target who does not hold the role is a no-op reported as such; otherwise the
role is removed and the action logged. -/
def revoke (clans : List Clan) (st : GuildState) (inp : AccessInput) : AccessResult :=
  if inp.callerPresent then
    let accessible := clans.filter (fun c => hasRole st inp.callerId c.approverRoleId)
    if accessible.isEmpty then
      ⟨AccessOutcome.notApprover, st,
        some "❌ You must have approver permissions for at least one clan to revoke access.", none⟩
    else
      match accessible.find? (fun c => c.id == inp.clanId) with
      | none =>
          ⟨AccessOutcome.notApproverForClan, st,
            some "❌ You must have approver permissions for this clan to revoke access.", none⟩
      | some clan =>
        if st.members.contains inp.targetId then
          if hasRole st inp.targetId clan.roleId then
            if inp.roleMutFails then
              ⟨AccessOutcome.roleMutationFailed, st,
                some "❌ Failed to revoke clan role. Please check bot permissions and try again.",
                none⟩
            else
              ⟨AccessOutcome.revoked, removeRole st inp.targetId clan.roleId,
                some ("✅ Successfully revoked " ++ clan.name ++ " access from <@"
                  ++ inp.targetId ++ ">."),
                (if inp.channelOk then
                  some ("**🔔 Clan Access Revoked**\n\n**From:** <@" ++ inp.targetId
                    ++ ">\n**Clan:** " ++ clan.name ++ "\n**Revoked by:** <@"
                    ++ inp.callerId ++ ">")
                 else none)⟩
          else
            ⟨AccessOutcome.doesNotHaveRole, st,
              some ("❌ <@" ++ inp.targetId ++ "> does not have the " ++ clan.name ++ " role."),
              none⟩
        else
          ⟨AccessOutcome.targetFetchFailed, st,
            some "❌ Failed to fetch target user information.", none⟩
  else
    ⟨AccessOutcome.noMemberInfo, st,
      some "❌ Failed to fetch your member information.", none⟩

/-! ## Signup button handler (src/events/di-clan-signup-button.ts) -/

/-- The exits of the `signup:` button handler. -/
inductive SignupOutcome where
  | notSignupButton
  | wrongMessage
  | groupNotFound
  | notClanMember
  | removedSignup
  | signedUp
deriving Repr, DecidableEq

/-- One `signup:` button interaction. `messageId` is the id of the message
the clicked control is attached to; `signups` is the per-user selection map
parsed out of that message's embed fields, modelled as an association list. -/
structure SignupInput where
  customId : String
  messageId : String
  userId : String
  signups : List (String × String)
deriving Repr, DecidableEq

/-- Observable result: outcome, updated selection map, whether the message
embed was rewritten, and the ephemeral reply. -/
structure SignupResult where
  outcome : SignupOutcome
  signups : List (String × String)
  edited : Bool
  replyText : Option String
deriving Repr, DecidableEq

/-- `signups.get(userId)` on the association-list model of the Map. -/
def signupLookup (signups : List (String × String)) (u : String) : Option String :=
  Option.map Prod.snd (signups.find? (fun p => p.1 == u))

/-- `signups.delete(userId)`. -/
def signupRemove (signups : List (String × String)) (u : String) : List (String × String) :=
  signups.filter (fun p => p.1 ≠ u)

/-- `signups.set(userId, selection)`. -/
def signupSet (signups : List (String × String)) (u s : String) : List (String × String) :=
  signupRemove signups u ++ [(u, s)]

/-- Reply text of the two signup branches. -/
def signupReply (selection : String) : String :=
  if selection = "cant-make-it" then "✅ Marked as unable to attend."
  else "✅ Signed up as " ++ selection ++ "."

/-- The `signup:` button handler: ignore other buttons; destructure
`customId.split(':')` into messageId, clanId, selection; reject the control
when its embedded messageId differs from the id of the message it is
attached to; then look up the clan, require the clicker to hold the clan
member role, and toggle their selection, rewriting the embed. -/
def signupHandler (clans : List Clan) (st : GuildState) (inp : SignupInput) : SignupResult :=
  if jsStartsWith inp.customId "signup:" then
    let parts := jsSplit ':' inp.customId
    let messageId := parts.getD 1 ""
    let clanId := parts.getD 2 ""
    let selection := parts.getD 3 ""
    if messageId ≠ inp.messageId then
      ⟨SignupOutcome.wrongMessage, inp.signups, false,
        some "❌ This signup button is from a different message."⟩
    else
      match clans.find? (fun c => c.id == clanId) with
      | none =>
          ⟨SignupOutcome.groupNotFound, inp.signups, false, some "❌ Invalid clan signup."⟩
      | some clan =>
        if hasRole st inp.userId clan.roleId then
          if signupLookup inp.signups inp.userId = some selection then
            ⟨SignupOutcome.removedSignup, signupRemove inp.signups inp.userId, true,
              some "✅ Removed your signup."⟩
          else
            ⟨SignupOutcome.signedUp, signupSet inp.signups inp.userId selection, true,
              some (signupReply selection)⟩
        else
          ⟨SignupOutcome.notClanMember, inp.signups, false,
            some ("❌ You must be a member of " ++ clan.name
              ++ " to participate in this signup.")⟩
  else
    ⟨SignupOutcome.notSignupButton, inp.signups, false, none⟩

/-! ## Helper lemmas -/

/-- A successful find? implies the searched list is nonempty. -/
lemma find?_some_not_empty {α : Type} (p : α → Bool) (l : List α) (a : α)
    (h : l.find? p = some a) : l.isEmpty = false := by
  cases l with
  | nil => simp [List.find?] at h
  | cons x xs => rfl

/-- If per-clan validation succeeds, every required field of the clan is
present and non-empty; note `description` is not among them. -/
lemma validateClan_ok_fields (i : Nat) (c : RawClan)
    (h : validateClan i c = Except.ok ()) :
    falsy c.id = false ∧ falsy c.name = false ∧ falsy c.roleId = false
      ∧ falsy c.approverRoleId = false ∧ falsy c.approvalChannelId = false := by
  unfold validateClan at h
  cases hf : requiredFields.find? (fun f => falsy (c.field f)) with
  | some f => rw [hf] at h; exact absurd h (by simp)
  | none =>
    rw [List.find?_eq_none] at hf
    refine ⟨?_, ?_, ?_, ?_, ?_⟩
    · have := hf "id" (by simp [requiredFields])
      simpa [RawClan.field] using this
    · have := hf "name" (by simp [requiredFields])
      simpa [RawClan.field] using this
    · have := hf "roleId" (by simp [requiredFields])
      simpa [RawClan.field] using this
    · have := hf "approverRoleId" (by simp [requiredFields])
      simpa [RawClan.field] using this
    · have := hf "approvalChannelId" (by simp [requiredFields])
      simpa [RawClan.field] using this

/-- If validation of a clan list succeeds, every member has all required
fields present and non-empty. -/
lemma validateClans_ok_mem (cs : List RawClan) (c : RawClan) (hc : c ∈ cs) :
    ∀ i, validateClans i cs = Except.ok () →
      falsy c.id = false ∧ falsy c.name = false ∧ falsy c.roleId = false
        ∧ falsy c.approverRoleId = false ∧ falsy c.approvalChannelId = false := by
  induction cs with
  | nil => cases hc
  | cons x xs ih =>
    intro i h
    unfold validateClans at h
    cases hx : validateClan i x with
    | error e => rw [hx] at h; exact absurd h (by simp)
    | ok u =>
      rw [hx] at h
      rcases List.mem_cons.mp hc with rfl | hmem
      · cases u; exact validateClan_ok_fields i c hx
      · exact ih hmem (i + 1) h

set_option maxHeartbeats 1600000 in
/-- The clan-request resolver never reads the identity of the message the
clicked control is attached to, except as the target of its edit: outcome
and role state are invariant under changing that message. -/
lemma resolve_messageId_invariant (clans : List Clan) (st : GuildState) (inp : ResolveInput)
    (m : String) :
    (resolve clans st { inp with messageId := m }).outcome = (resolve clans st inp).outcome
      ∧ (resolve clans st { inp with messageId := m }).state = (resolve clans st inp).state := by
  rcases inp with ⟨cid, rid, mid, ig, raf, ef, df⟩
  constructor <;> (simp only [resolve]; repeat' split) <;> rfl

/-! ## Claim theorems -/

/-- Claim C1, counterexample: a `cr:` token that splits into five fields is
not rejected as malformed; the handler resolves it fully, with a role
mutation, using the first four fields and ignoring the fifth. -/
theorem resolve_extra_fields_counterexample :
    jsSplit ':' "cr:u1:alpha:a:x" = ["cr", "u1", "alpha", "a", "x"]
    ∧ (resolve [⟨"alpha", "Alpha", "R1", "R2", "C1"⟩] ⟨["u1", "u2"], [("u2", "R2")]⟩
        ⟨"cr:u1:alpha:a:x", "u2", "M1", true, false, false, false⟩).outcome
      = ResolveOutcome.resolved true
    ∧ hasRole (resolve [⟨"alpha", "Alpha", "R1", "R2", "C1"⟩] ⟨["u1", "u2"], [("u2", "R2")]⟩
        ⟨"cr:u1:alpha:a:x", "u2", "M1", true, false, false, false⟩).state "u1" "R1" = true := by
  decide

/-- Claim C1 as amended: for every `cr:` button token, if any of the 2nd,
3rd or 4th colon-separated fields is missing or empty, resolve reports
MalformedToken and performs no role mutation, no message edit, and no
notification. (Tokens with more than four fields are not rejected: the
extra fields are ignored.) -/
theorem resolve_malformed_guard (clans : List Clan) (st : GuildState) (inp : ResolveInput)
    (hcr : jsStartsWith inp.customId "cr:" = true)
    (hemp : (jsSplit ':' inp.customId).getD 1 "" = ""
      ∨ (jsSplit ':' inp.customId).getD 2 "" = ""
      ∨ (jsSplit ':' inp.customId).getD 3 "" = "") :
    resolve clans st inp =
      ⟨ResolveOutcome.malformedToken, st, some "Invalid request data.", none, none⟩ := by
  unfold resolve
  rw [hcr]
  simp only [if_true, ite_true]
  rw [if_pos hemp]

/-- Claim C1 witness: a token with an empty user field is rejected as
malformed with no effect. -/
theorem resolve_malformed_guard_witness :
    resolve [] ⟨[], []⟩ ⟨"cr::alpha:a", "u2", "M1", true, false, false, false⟩ =
      ⟨ResolveOutcome.malformedToken, ⟨[], []⟩, some "Invalid request data.", none, none⟩ :=
  resolve_malformed_guard [] ⟨[], []⟩ _ (by decide) (Or.inl (by decide))

/-- Claim C2: on a well-formed token addressed to a configured group, a
responder who does not hold the approver role in the live role state gets
an Unauthorized reply, and no role mutation, no message edit and no
notification happen. -/
theorem resolve_unauthorized (clans : List Clan) (st : GuildState) (inp : ResolveInput)
    (u g d : String) (clan : Clan)
    (hcr : jsStartsWith inp.customId "cr:" = true)
    (hsplit : jsSplit ':' inp.customId = ["cr", u, g, d])
    (hu : u ≠ "") (hg : g ≠ "") (hd : d ≠ "")
    (hfind : clans.find? (fun c => c.id == g) = some clan)
    (hguild : inp.inGuild = true)
    (hmem : st.members.contains inp.responderId = true)
    (hrole : hasRole st inp.responderId clan.approverRoleId = false) :
    resolve clans st inp =
      ⟨ResolveOutcome.unauthorized, st,
        some "You do not have permission to handle this request.", none, none⟩ := by
  unfold resolve
  rw [hcr]
  simp only [if_true, ite_true, hsplit]
  simp [hu, hg, hd, hfind, hguild, hrole]
  simpa using hmem

/-- Claim C2 witness: responder u3, who lacks the approver role R2, is
rejected with no state change. -/
theorem resolve_unauthorized_witness :
    resolve [⟨"alpha", "Alpha", "R1", "R2", "C1"⟩] ⟨["u1", "u3"], []⟩
        ⟨"cr:u1:alpha:a", "u3", "M1", true, false, false, false⟩ =
      ⟨ResolveOutcome.unauthorized, ⟨["u1", "u3"], []⟩,
        some "You do not have permission to handle this request.", none, none⟩ :=
  resolve_unauthorized [⟨"alpha", "Alpha", "R1", "R2", "C1"⟩] ⟨["u1", "u3"], []⟩
    ⟨"cr:u1:alpha:a", "u3", "M1", true, false, false, false⟩
    "u1" "alpha" "a" ⟨"alpha", "Alpha", "R1", "R2", "C1"⟩
    (by decide) (by decide) (by decide) (by decide) (by decide) (by decide)
    (by decide) (by decide) (by decide)

/-- Claim C3: when an authorized responder successfully resolves a
well-formed pending request, an approve decision leaves the requesting user
holding the member role, and a deny decision performs no role mutation at
all, so the role state is unchanged. -/
theorem resolve_approve_then_check (clans : List Clan) (st : GuildState) (inp : ResolveInput)
    (u g d : String) (clan : Clan)
    (hcr : jsStartsWith inp.customId "cr:" = true)
    (hsplit : jsSplit ':' inp.customId = ["cr", u, g, d])
    (hu : u ≠ "") (hg : g ≠ "") (hd : d ≠ "")
    (hfind : clans.find? (fun c => c.id == g) = some clan)
    (hguild : inp.inGuild = true)
    (hmem : st.members.contains inp.responderId = true)
    (hrole : hasRole st inp.responderId clan.approverRoleId = true)
    (hreq : st.members.contains u = true)
    (hmut : inp.roleAddFails = false) :
    (d = "a" →
      (resolve clans st inp).outcome = ResolveOutcome.resolved true
        ∧ hasRole (resolve clans st inp).state u clan.roleId = true)
    ∧ (d ≠ "a" →
      (resolve clans st inp).outcome = ResolveOutcome.resolved false
        ∧ (resolve clans st inp).state = st) := by
  have hm : inp.responderId ∈ st.members := by simpa using hmem
  have hq : u ∈ st.members := by simpa using hreq
  have hr : (inp.responderId, clan.approverRoleId) ∈ st.roles := by
    simpa [hasRole] using hrole
  unfold resolve
  rw [hcr]
  simp only [if_true, ite_true, hsplit]
  constructor
  · intro ha
    subst ha
    simp [hu, hg, hd, hfind, hguild, hmut, hasRole, addRole, hm, hq, hr]
  · intro ha
    have hba : (d == "a") = false := by simpa using ha
    simp [hu, hg, hd, hfind, hguild, hmut, hba, hasRole, hm, hq, hr]

/-- Claim C3 witness: approving grants R1 to u1; denying leaves the role
state untouched. -/
theorem resolve_approve_then_check_witness :
    ((resolve [⟨"alpha", "Alpha", "R1", "R2", "C1"⟩] ⟨["u1", "u2"], [("u2", "R2")]⟩
        ⟨"cr:u1:alpha:a", "u2", "M1", true, false, false, false⟩).outcome
      = ResolveOutcome.resolved true
      ∧ hasRole (resolve [⟨"alpha", "Alpha", "R1", "R2", "C1"⟩] ⟨["u1", "u2"], [("u2", "R2")]⟩
          ⟨"cr:u1:alpha:a", "u2", "M1", true, false, false, false⟩).state "u1" "R1" = true)
    ∧ ((resolve [⟨"alpha", "Alpha", "R1", "R2", "C1"⟩] ⟨["u1", "u2"], [("u2", "R2")]⟩
        ⟨"cr:u1:alpha:d", "u2", "M1", true, false, false, false⟩).outcome
      = ResolveOutcome.resolved false
      ∧ (resolve [⟨"alpha", "Alpha", "R1", "R2", "C1"⟩] ⟨["u1", "u2"], [("u2", "R2")]⟩
          ⟨"cr:u1:alpha:d", "u2", "M1", true, false, false, false⟩).state
        = ⟨["u1", "u2"], [("u2", "R2")]⟩) :=
  ⟨(resolve_approve_then_check [⟨"alpha", "Alpha", "R1", "R2", "C1"⟩]
      ⟨["u1", "u2"], [("u2", "R2")]⟩ ⟨"cr:u1:alpha:a", "u2", "M1", true, false, false, false⟩
      "u1" "alpha" "a" ⟨"alpha", "Alpha", "R1", "R2", "C1"⟩
      (by decide) (by decide) (by decide) (by decide) (by decide) (by decide)
      (by decide) (by decide) (by decide) (by decide) (by decide)).1 rfl,
   (resolve_approve_then_check [⟨"alpha", "Alpha", "R1", "R2", "C1"⟩]
      ⟨["u1", "u2"], [("u2", "R2")]⟩ ⟨"cr:u1:alpha:d", "u2", "M1", true, false, false, false⟩
      "u1" "alpha" "d" ⟨"alpha", "Alpha", "R1", "R2", "C1"⟩
      (by decide) (by decide) (by decide) (by decide) (by decide) (by decide)
      (by decide) (by decide) (by decide) (by decide) (by decide)).2 (by decide)⟩

/-- Claim C4: with the clan configured, a requester who does not hold the
member role gets exactly one approval message posted and an acknowledgment;
a requester who already holds it is told AlreadyMember and nothing is
posted. -/
theorem submit_posts_once_or_rejects (clans : List Clan) (st : GuildState) (inp : SubmitInput)
    (clan : Clan)
    (hfind : clans.find? (fun c => c.id == inp.clanId) = some clan) :
    (hasRole st inp.requesterId clan.roleId = false → inp.channelOk = true →
      (submit clans st inp).outcome = SubmitOutcome.submitted
        ∧ (submit clans st inp).posted.length = 1
        ∧ (submit clans st inp).reply =
            some ("✅ Your request to join " ++ clan.name ++ " has been submitted for review."))
    ∧ (hasRole st inp.requesterId clan.roleId = true →
      (submit clans st inp).outcome = SubmitOutcome.alreadyMember
        ∧ (submit clans st inp).posted = []) := by
  unfold submit
  rw [hfind]
  constructor
  · intro hno hch
    simp [hno, hch]
  · intro hyes
    simp [hyes]

/-- Claim C4 witness: u1 without R1 gets one posted message and an
acknowledgment; u1 with R1 gets AlreadyMember and no post. -/
theorem submit_posts_once_or_rejects_witness :
    ((submit [⟨"alpha", "Alpha", "R1", "R2", "C1"⟩] ⟨["u1"], []⟩
        ⟨"u1", "alpha", "Hero123", true, 0⟩).outcome = SubmitOutcome.submitted
      ∧ (submit [⟨"alpha", "Alpha", "R1", "R2", "C1"⟩] ⟨["u1"], []⟩
          ⟨"u1", "alpha", "Hero123", true, 0⟩).posted.length = 1
      ∧ (submit [⟨"alpha", "Alpha", "R1", "R2", "C1"⟩] ⟨["u1"], []⟩
          ⟨"u1", "alpha", "Hero123", true, 0⟩).reply =
        some ("✅ Your request to join " ++ "Alpha" ++ " has been submitted for review."))
    ∧ ((submit [⟨"alpha", "Alpha", "R1", "R2", "C1"⟩] ⟨["u1"], [("u1", "R1")]⟩
        ⟨"u1", "alpha", "Hero123", true, 0⟩).outcome = SubmitOutcome.alreadyMember
      ∧ (submit [⟨"alpha", "Alpha", "R1", "R2", "C1"⟩] ⟨["u1"], [("u1", "R1")]⟩
          ⟨"u1", "alpha", "Hero123", true, 0⟩).posted = []) :=
  ⟨(submit_posts_once_or_rejects [⟨"alpha", "Alpha", "R1", "R2", "C1"⟩] ⟨["u1"], []⟩
      ⟨"u1", "alpha", "Hero123", true, 0⟩ ⟨"alpha", "Alpha", "R1", "R2", "C1"⟩
      (by decide)).1 (by decide) rfl,
   (submit_posts_once_or_rejects [⟨"alpha", "Alpha", "R1", "R2", "C1"⟩]
      ⟨["u1"], [("u1", "R1")]⟩ ⟨"u1", "alpha", "Hero123", true, 0⟩
      ⟨"alpha", "Alpha", "R1", "R2", "C1"⟩ (by decide)).2 (by decide)⟩

/-- Claim C5: in the approve branch, a platform-rejected role mutation
makes the handler reply that the mutation failed and halt: role state
unchanged, no message edit, no requester notification. -/
theorem resolve_mutation_failure_halts (clans : List Clan) (st : GuildState) (inp : ResolveInput)
    (u g : String) (clan : Clan)
    (hcr : jsStartsWith inp.customId "cr:" = true)
    (hsplit : jsSplit ':' inp.customId = ["cr", u, g, "a"])
    (hu : u ≠ "") (hg : g ≠ "")
    (hfind : clans.find? (fun c => c.id == g) = some clan)
    (hguild : inp.inGuild = true)
    (hmem : st.members.contains inp.responderId = true)
    (hrole : hasRole st inp.responderId clan.approverRoleId = true)
    (hreq : st.members.contains u = true)
    (hmut : inp.roleAddFails = true) :
    resolve clans st inp =
      ⟨ResolveOutcome.roleMutationFailed, st,
        some "Failed to add clan role. Please check bot permissions and try again.",
        none, none⟩ := by
  have hm : inp.responderId ∈ st.members := by simpa using hmem
  have hq : u ∈ st.members := by simpa using hreq
  have hr : (inp.responderId, clan.approverRoleId) ∈ st.roles := by
    simpa [hasRole] using hrole
  unfold resolve
  rw [hcr]
  simp only [if_true, ite_true, hsplit]
  simp [hu, hg, hfind, hguild, hmut, hasRole, hm, hq, hr]

/-- Claim C5 witness: with the role add failing, the handler halts with
state unchanged and neither edit nor DM. -/
theorem resolve_mutation_failure_halts_witness :
    resolve [⟨"alpha", "Alpha", "R1", "R2", "C1"⟩] ⟨["u1", "u2"], [("u2", "R2")]⟩
        ⟨"cr:u1:alpha:a", "u2", "M1", true, true, false, false⟩ =
      ⟨ResolveOutcome.roleMutationFailed, ⟨["u1", "u2"], [("u2", "R2")]⟩,
        some "Failed to add clan role. Please check bot permissions and try again.",
        none, none⟩ :=
  resolve_mutation_failure_halts [⟨"alpha", "Alpha", "R1", "R2", "C1"⟩]
    ⟨["u1", "u2"], [("u2", "R2")]⟩ ⟨"cr:u1:alpha:a", "u2", "M1", true, true, false, false⟩
    "u1" "alpha" ⟨"alpha", "Alpha", "R1", "R2", "C1"⟩
    (by decide) (by decide) (by decide) (by decide) (by decide) (by decide)
    (by decide) (by decide) (by decide) (by decide)

/-- Claim C6: an authorized grant whose target already holds the member
role is a no-op reported as AlreadyHasRole, and an authorized revoke whose
target lacks it is a no-op reported as DoesNotHaveRole; in both cases the
role state is unchanged. -/
theorem grant_revoke_idempotent_noop (clans : List Clan) (st : GuildState) (inp : AccessInput)
    (clan : Clan)
    (hp : inp.callerPresent = true)
    (hfind : (clans.filter (fun c => hasRole st inp.callerId c.approverRoleId)).find?
        (fun c => c.id == inp.clanId) = some clan)
    (hmem : st.members.contains inp.targetId = true) :
    (hasRole st inp.targetId clan.roleId = true →
      (grant clans st inp).outcome = AccessOutcome.alreadyHasRole
        ∧ (grant clans st inp).state = st)
    ∧ (hasRole st inp.targetId clan.roleId = false →
      (revoke clans st inp).outcome = AccessOutcome.doesNotHaveRole
        ∧ (revoke clans st inp).state = st) := by
  have hne := find?_some_not_empty _ _ _ hfind
  constructor
  · intro hrole
    unfold grant
    rw [hp]
    simp only [if_true, ite_true, hne, Bool.false_eq_true, if_false, ite_false]
    rw [hfind]
    simp only [hmem, hrole, if_true, ite_true]
    constructor <;> trivial
  · intro hrole
    unfold revoke
    rw [hp]
    simp only [if_true, ite_true, hne, Bool.false_eq_true, if_false, ite_false]
    rw [hfind]
    simp only [hmem, hrole, Bool.false_eq_true, if_true, ite_true, if_false, ite_false]
    constructor <;> trivial

/-- Claim C6 witness: granting to a holder of R1 reports AlreadyHasRole and
mutates nothing; revoking from a non-holder reports DoesNotHaveRole and
mutates nothing. -/
theorem grant_revoke_idempotent_noop_witness :
    ((grant [⟨"alpha", "Alpha", "R1", "R2", "C1"⟩]
        ⟨["t1"], [("c1", "R2"), ("t1", "R1")]⟩
        ⟨"c1", "t1", "alpha", true, false, true⟩).outcome = AccessOutcome.alreadyHasRole
      ∧ (grant [⟨"alpha", "Alpha", "R1", "R2", "C1"⟩]
          ⟨["t1"], [("c1", "R2"), ("t1", "R1")]⟩
          ⟨"c1", "t1", "alpha", true, false, true⟩).state
        = ⟨["t1"], [("c1", "R2"), ("t1", "R1")]⟩)
    ∧ ((revoke [⟨"alpha", "Alpha", "R1", "R2", "C1"⟩] ⟨["t1"], [("c1", "R2")]⟩
        ⟨"c1", "t1", "alpha", true, false, true⟩).outcome = AccessOutcome.doesNotHaveRole
      ∧ (revoke [⟨"alpha", "Alpha", "R1", "R2", "C1"⟩] ⟨["t1"], [("c1", "R2")]⟩
          ⟨"c1", "t1", "alpha", true, false, true⟩).state = ⟨["t1"], [("c1", "R2")]⟩) :=
  ⟨(grant_revoke_idempotent_noop [⟨"alpha", "Alpha", "R1", "R2", "C1"⟩]
      ⟨["t1"], [("c1", "R2"), ("t1", "R1")]⟩ ⟨"c1", "t1", "alpha", true, false, true⟩
      ⟨"alpha", "Alpha", "R1", "R2", "C1"⟩ (by decide) (by decide) (by decide)).1 (by decide),
   (grant_revoke_idempotent_noop [⟨"alpha", "Alpha", "R1", "R2", "C1"⟩]
      ⟨["t1"], [("c1", "R2")]⟩ ⟨"c1", "t1", "alpha", true, false, true⟩
      ⟨"alpha", "Alpha", "R1", "R2", "C1"⟩ (by decide) (by decide) (by decide)).2 (by decide)⟩

/-- Claim C7, counterexample: a clan with every field except `description`
present and non-empty passes configuration loading, although the claim
requires a group missing `description` to be rejected. -/
theorem loadClanConfig_missing_description_counterexample :
    loadClanConfig (ConfigFile.parsed
        [⟨some "a", some "A", none, some "R1", some "R2", some "C1"⟩]) =
      Except.ok [⟨some "a", some "A", none, some "R1", some "R2", some "C1"⟩] := by
  rfl

/-- Claim C7 as amended: configuration loading fails with a descriptive
error when the file is absent, unparseable, or not an array under the
clans key, and when any group has any of the fields id, name, roleId,
approverRoleId, approvalChannelId absent or empty; the `description` field
is not validated. -/
theorem loadClanConfig_validation :
    isErr (loadClanConfig ConfigFile.absent) = true
    ∧ isErr (loadClanConfig ConfigFile.unparseable) = true
    ∧ isErr (loadClanConfig ConfigFile.noClanArray) = true
    ∧ ∀ (cs : List RawClan) (c : RawClan), c ∈ cs →
        (falsy c.id = true ∨ falsy c.name = true ∨ falsy c.roleId = true
          ∨ falsy c.approverRoleId = true ∨ falsy c.approvalChannelId = true) →
        isErr (loadClanConfig (ConfigFile.parsed cs)) = true := by
  refine ⟨rfl, rfl, rfl, ?_⟩
  intro cs c hc hbad
  unfold loadClanConfig
  dsimp only
  cases hv : validateClans 0 cs with
  | error e => rfl
  | ok u =>
    cases u
    have hok := validateClans_ok_mem cs c hc 0 hv
    rcases hbad with h | h | h | h | h <;> simp [h] at hok

/-- Claim C7 witness: a clan whose roleId is missing makes loading fail. -/
theorem loadClanConfig_validation_witness :
    isErr (loadClanConfig (ConfigFile.parsed
        [⟨some "a", some "A", some "D", none, some "R2", some "C1"⟩])) = true :=
  loadClanConfig_validation.2.2.2
    [⟨some "a", some "A", some "D", none, some "R2", some "C1"⟩]
    ⟨some "a", some "A", some "D", none, some "R2", some "C1"⟩
    (by decide) (Or.inr (Or.inr (Or.inl (by decide))))

/-- Claim C8, counterexample: a decision control posted by submit carries
no message identity, and clicking it while it sits on a different message
(M2) is not rejected: the request is fully resolved, the role is mutated
and the attached message M2 is edited. -/
theorem decision_control_message_identity_counterexample :
    (submit [⟨"alpha", "Alpha", "R1", "R2", "C1"⟩] ⟨["u1", "u2"], [("u2", "R2")]⟩
        ⟨"u1", "alpha", "Hero123", true, 0⟩).posted =
      [(requestContent "u1" "Hero123" 0 "R2", ["cr:u1:alpha:a", "cr:u1:alpha:d"])]
    ∧ (resolve [⟨"alpha", "Alpha", "R1", "R2", "C1"⟩] ⟨["u1", "u2"], [("u2", "R2")]⟩
        ⟨"cr:u1:alpha:a", "u2", "M2", true, false, false, false⟩).outcome
      = ResolveOutcome.resolved true
    ∧ (resolve [⟨"alpha", "Alpha", "R1", "R2", "C1"⟩] ⟨["u1", "u2"], [("u2", "R2")]⟩
        ⟨"cr:u1:alpha:a", "u2", "M2", true, false, false, false⟩).editedMessage
      = some ("M2", "✅ Accepted by <@u2>")
    ∧ hasRole (resolve [⟨"alpha", "Alpha", "R1", "R2", "C1"⟩] ⟨["u1", "u2"], [("u2", "R2")]⟩
        ⟨"cr:u1:alpha:a", "u2", "M2", true, false, false, false⟩).state "u1" "R1" = true := by
  decide

/-- Claim C8 as amended: only the signup controls carry a message identity
and only their handler validates it — a signup control whose embedded
messageId differs from the message it is attached to is rejected with no
signup change and no edit; the clan-request decision controls carry no
message identity, and the resolver's outcome and role state are invariant
under the identity of the attached message. -/
theorem message_identity_check :
    (∀ (clans : List Clan) (st : GuildState) (inp : SignupInput),
      jsStartsWith inp.customId "signup:" = true →
      (jsSplit ':' inp.customId).getD 1 "" ≠ inp.messageId →
      signupHandler clans st inp =
        ⟨SignupOutcome.wrongMessage, inp.signups, false,
          some "❌ This signup button is from a different message."⟩)
    ∧ (∀ (clans : List Clan) (st : GuildState) (inp : ResolveInput) (m : String),
      (resolve clans st { inp with messageId := m }).outcome = (resolve clans st inp).outcome
        ∧ (resolve clans st { inp with messageId := m }).state
          = (resolve clans st inp).state) := by
  constructor
  · intro clans st inp hsb hmm
    unfold signupHandler
    rw [hsb]
    simp only [if_true, ite_true]
    rw [if_pos hmm]
  · intro clans st inp m
    exact resolve_messageId_invariant clans st inp m

/-- Claim C8 witness: a signup control embedded with message M1 but
attached to M2 is rejected with no state change. -/
theorem message_identity_check_witness :
    signupHandler [] ⟨[], []⟩ ⟨"signup:M1:alpha:wizard", "M2", "u1", []⟩ =
      ⟨SignupOutcome.wrongMessage, [], false,
        some "❌ This signup button is from a different message."⟩ :=
  message_identity_check.1 [] ⟨[], []⟩ ⟨"signup:M1:alpha:wizard", "M2", "u1", []⟩
    (by decide) (by decide)

/-- Claim C9, counterexample: with the message edit failing after a
successful approve mutation, the handler does not abort: it still reports
success to the responder and still sends the requester DM, swallowing the
edit failure. -/
theorem edit_failure_swallowed_counterexample :
    resolve [⟨"alpha", "Alpha", "R1", "R2", "C1"⟩] ⟨["u1", "u2"], [("u2", "R2")]⟩
        ⟨"cr:u1:alpha:a", "u2", "M1", true, false, true, false⟩ =
      ⟨ResolveOutcome.resolved true, ⟨["u1", "u2"], [("u1", "R1"), ("u2", "R2")]⟩,
        some "You have accepted the request for <@u1> to join Alpha.",
        none,
        some (dmContent true "Alpha" "u2")⟩ := by
  decide

/-- Claim C9 as amended: once the role mutation step has succeeded (or the
decision is a deny), the handler always completes: the responder reply is
delivered, the message edit is attempted and its failure swallowed, and
the requester DM is attempted regardless of the edit failing, with its own
failure likewise swallowed. -/
theorem resolve_post_mutation_failures_swallowed (clans : List Clan) (st : GuildState)
    (inp : ResolveInput) (u g d : String) (clan : Clan)
    (hcr : jsStartsWith inp.customId "cr:" = true)
    (hsplit : jsSplit ':' inp.customId = ["cr", u, g, d])
    (hu : u ≠ "") (hg : g ≠ "") (hd : d ≠ "")
    (hfind : clans.find? (fun c => c.id == g) = some clan)
    (hguild : inp.inGuild = true)
    (hmem : st.members.contains inp.responderId = true)
    (hrole : hasRole st inp.responderId clan.approverRoleId = true)
    (hreq : st.members.contains u = true)
    (hnf : ((d == "a") && inp.roleAddFails) = false) :
    (resolve clans st inp).outcome = ResolveOutcome.resolved (d == "a")
      ∧ (resolve clans st inp).replyText =
          some ("You have " ++ decisionWord (d == "a") ++ " the request for <@" ++ u
            ++ "> to join " ++ clan.name ++ ".")
      ∧ (resolve clans st inp).editedMessage =
          (if inp.editFails then none
           else some (inp.messageId, editLine (d == "a") inp.responderId))
      ∧ (resolve clans st inp).dmText =
          (if inp.dmFails then none
           else some (dmContent (d == "a") clan.name inp.responderId)) := by
  have hm : inp.responderId ∈ st.members := by simpa using hmem
  have hq : u ∈ st.members := by simpa using hreq
  have hr : (inp.responderId, clan.approverRoleId) ∈ st.roles := by
    simpa [hasRole] using hrole
  unfold resolve
  rw [hcr]
  simp only [if_true, ite_true, hsplit]
  simp [hu, hg, hd, hfind, hguild, hasRole, hm, hq, hr, hnf]

/-- Claim C9 witness: with the edit failing and the DM succeeding on an
approve, the handler completes with the success reply and the DM sent. -/
theorem resolve_post_mutation_failures_swallowed_witness :
    (resolve [⟨"alpha", "Alpha", "R1", "R2", "C1"⟩] ⟨["u1", "u2"], [("u2", "R2")]⟩
        ⟨"cr:u1:alpha:a", "u2", "M1", true, false, true, false⟩).outcome
      = ResolveOutcome.resolved (("a" : String) == "a")
    ∧ (resolve [⟨"alpha", "Alpha", "R1", "R2", "C1"⟩] ⟨["u1", "u2"], [("u2", "R2")]⟩
        ⟨"cr:u1:alpha:a", "u2", "M1", true, false, true, false⟩).replyText =
      some ("You have " ++ decisionWord (("a" : String) == "a") ++ " the request for <@"
        ++ "u1" ++ "> to join " ++ "Alpha" ++ ".")
    ∧ (resolve [⟨"alpha", "Alpha", "R1", "R2", "C1"⟩] ⟨["u1", "u2"], [("u2", "R2")]⟩
        ⟨"cr:u1:alpha:a", "u2", "M1", true, false, true, false⟩).editedMessage = none
    ∧ (resolve [⟨"alpha", "Alpha", "R1", "R2", "C1"⟩] ⟨["u1", "u2"], [("u2", "R2")]⟩
        ⟨"cr:u1:alpha:a", "u2", "M1", true, false, true, false⟩).dmText =
      some (dmContent (("a" : String) == "a") "Alpha" "u2") := by
  simpa using resolve_post_mutation_failures_swallowed [⟨"alpha", "Alpha", "R1", "R2", "C1"⟩]
    ⟨["u1", "u2"], [("u2", "R2")]⟩ ⟨"cr:u1:alpha:a", "u2", "M1", true, false, true, false⟩
    "u1" "alpha" "a" ⟨"alpha", "Alpha", "R1", "R2", "C1"⟩
    (by decide) (by decide) (by decide) (by decide) (by decide) (by decide)
    (by decide) (by decide) (by decide) (by decide) (by decide)

/-- Claim C10: on a well-formed token whose decision field is non-empty
and different from "a", an authorized resolve behaves exactly as a denial:
no role is added (state unchanged), and the responder reply, the message
edit and the requester DM all report a denied outcome. -/
theorem resolve_nondecision_is_denial (clans : List Clan) (st : GuildState) (inp : ResolveInput)
    (u g d : String) (clan : Clan)
    (hcr : jsStartsWith inp.customId "cr:" = true)
    (hsplit : jsSplit ':' inp.customId = ["cr", u, g, d])
    (hu : u ≠ "") (hg : g ≠ "") (hd : d ≠ "") (hda : d ≠ "a")
    (hfind : clans.find? (fun c => c.id == g) = some clan)
    (hguild : inp.inGuild = true)
    (hmem : st.members.contains inp.responderId = true)
    (hrole : hasRole st inp.responderId clan.approverRoleId = true)
    (hreq : st.members.contains u = true) :
    resolve clans st inp =
      ⟨ResolveOutcome.resolved false, st,
        some ("You have denied the request for <@" ++ u ++ "> to join " ++ clan.name ++ "."),
        (if inp.editFails then none
         else some (inp.messageId, "❌ Denied by <@" ++ inp.responderId ++ ">")),
        (if inp.dmFails then none
         else some (dmContent false clan.name inp.responderId))⟩ := by
  have hm : inp.responderId ∈ st.members := by simpa using hmem
  have hq : u ∈ st.members := by simpa using hreq
  have hr : (inp.responderId, clan.approverRoleId) ∈ st.roles := by
    simpa [hasRole] using hrole
  have hba : (d == "a") = false := by simpa using hda
  unfold resolve
  rw [hcr]
  simp only [if_true, ite_true, hsplit]
  simp [hu, hg, hd, hfind, hguild, hba, hasRole, hm, hq, hr, decisionWord, editLine]

/-- Claim C10 witness: the unknown decision code "x" is processed as a
denial on all three surfaces with no role mutation. -/
theorem resolve_nondecision_is_denial_witness :
    resolve [⟨"alpha", "Alpha", "R1", "R2", "C1"⟩] ⟨["u1", "u2"], [("u2", "R2")]⟩
        ⟨"cr:u1:alpha:x", "u2", "M1", true, false, false, false⟩ =
      ⟨ResolveOutcome.resolved false, ⟨["u1", "u2"], [("u2", "R2")]⟩,
        some ("You have denied the request for <@" ++ "u1" ++ "> to join " ++ "Alpha" ++ "."),
        some ("M1", "❌ Denied by <@" ++ "u2" ++ ">"),
        some (dmContent false "Alpha" "u2")⟩ := by
  simpa using resolve_nondecision_is_denial [⟨"alpha", "Alpha", "R1", "R2", "C1"⟩]
    ⟨["u1", "u2"], [("u2", "R2")]⟩ ⟨"cr:u1:alpha:x", "u2", "M1", true, false, false, false⟩
    "u1" "alpha" "x" ⟨"alpha", "Alpha", "R1", "R2", "C1"⟩
    (by decide) (by decide) (by decide) (by decide) (by decide) (by decide)
    (by decide) (by decide) (by decide) (by decide) (by decide)

end Thunderbot
